import Mathlib

/-!
Verification of the coffee-roaster backend core (roastify-backend).

This file shallowly embeds the state-bearing core of the repository:
the temperature simulator (`app/core/simulator.py`), the monitoring
session state and its operations (`app/core/monitor/`), and the
client/server state reconciliation endpoint
(`app/api/router/roast_status.py`, `sync_roast_state`).

Python floats are modelled as rationals (`ℚ`); the claims under study
do not depend on floating-point rounding.  Mutable module-level state
is gathered into explicit state records, and each Python function that
mutates it becomes a state-passing Lean function.
-/

namespace Roastify

/-- `settings.DEFAULT_TEMPERATURE` (app/config.py): the ambient starting
temperature, 24.0. -/
def DEFAULT_TEMPERATURE : ℚ := 24

/-- `settings.TEMPERATURE_UPDATE_INTERVAL` (app/config.py): 0.2 seconds. -/
def TEMPERATURE_UPDATE_INTERVAL : ℚ := 1/5

/-- `settings.SIMULATION_MODE` (app/config.py): defaults to `True`. -/
def SIMULATION_MODE : Bool := true

/-- A recorded sample, the dict `{"time": float, "temperature": float}`
appended by the monitoring loop and accepted by the sync endpoint
(`Dict[str, float]`). -/
structure TemperaturePoint where
  time : ℚ
  temperature : ℚ
deriving DecidableEq, Repr

/-- A roast marker dict as built by `create_marker`
(app/core/monitor/markers.py). -/
structure Marker where
  id : String
  time : ℚ
  temperature : ℚ
  label : String
  color : String
  notes : String
deriving DecidableEq, Repr

/-- The crack-status dict returned by `get_crack_status`
(app/core/monitor/crack.py). -/
structure CrackStatus where
  first : Bool
  second : Bool
  first_time : Option ℚ
  second_time : Option ℚ
deriving DecidableEq, Repr

/-- The simulator module state: globals `current_temperature` and
`last_update_time` of app/core/simulator.py. -/
structure SimulatorState where
  current_temperature : ℚ
  last_update_time : ℚ
deriving DecidableEq, Repr

/-- The server-side session state.  Fields mirror the module-level
globals of app/core/monitor/state.py plus the simulator globals.

`monitor_is_roasting` models the binding `monitor.is_roasting`: the
package `app.core.monitor` re-exports the names of
`app.core.monitor.state` with a star import executed once at import
time, so `monitor.is_roasting` is a separate copy of the flag,
initialised `False` and never reassigned anywhere in the repository,
while the mutators (`start_roast`, `pause_roast`, ...) write
`state.is_roasting`.  The sync endpoint reads `monitor.is_roasting`
in its guard, so both bindings are carried in the state record. -/
structure ServerState where
  is_roasting : Bool
  monitor_is_roasting : Bool
  roast_start_time : ℚ
  roast_data : List TemperaturePoint
  markers : List Marker
  first_crack_detected : Bool
  second_crack_detected : Bool
  first_crack_time : Option ℚ
  second_crack_time : Option ℚ
  sim : SimulatorState
deriving DecidableEq, Repr

/-- `reset_simulator` (app/core/simulator.py, lines 13-18). -/
def reset_simulator : SimulatorState :=
  { current_temperature := DEFAULT_TEMPERATURE, last_update_time := 0 }

/-- `get_simulated_temperature` (app/core/simulator.py). -/
def get_simulated_temperature (sim : SimulatorState) : ℚ :=
  sim.current_temperature

/-- `update_temperature(heat_level, force_update)`
(app/core/simulator.py, lines 30-72).  `time.time()` is passed as
`now`; the draw `random.uniform(-1, 3)` is passed as `jitter`.
Returns the returned temperature together with the new simulator
state. -/
def update_temperature (heat_level : ℤ) (force_update : Bool) (jitter now : ℚ)
    (sim : SimulatorState) : ℚ × SimulatorState :=
  if force_update = false ∧ now - sim.last_update_time < TEMPERATURE_UPDATE_INTERVAL then
    (sim.current_temperature, sim)
  else
    let heat_effect : ℚ := (heat_level : ℚ) * 2
    let cooling_factor : ℚ := (sim.current_temperature - DEFAULT_TEMPERATURE) * (2/100)
    let delta_time0 : ℚ :=
      if sim.last_update_time > 0 then now - sim.last_update_time
      else TEMPERATURE_UPDATE_INTERVAL
    let delta_time : ℚ := min delta_time0 1
    let t1 : ℚ := sim.current_temperature + (heat_effect - cooling_factor) * (1/10) * delta_time + jitter
    let t2 : ℚ := max DEFAULT_TEMPERATURE t1
    let t3 : ℚ := min 550 t2
    (t3, { current_temperature := t3, last_update_time := now })

/-- `simulate_first_crack` (app/core/simulator.py): 365 ≤ t ≤ 385. -/
def simulate_first_crack (current_temp : ℚ) : Bool :=
  decide (365 ≤ current_temp ∧ current_temp ≤ 385)

/-- `simulate_second_crack` (app/core/simulator.py): 435 ≤ t ≤ 450. -/
def simulate_second_crack (current_temp : ℚ) : Bool :=
  decide (435 ≤ current_temp ∧ current_temp ≤ 450)

/-- `get_roast_stage` (app/core/simulator.py, lines 100-121). -/
def get_roast_stage (current_temp : ℚ) : String :=
  if current_temp < 200 then "Green"
  else if current_temp < 300 then "Yellow"
  else if current_temp < 350 then "Light Brown"
  else if current_temp < 400 then "Medium Brown"
  else if current_temp < 435 then "Dark Brown"
  else "Nearly Black"

/-- Severity rank of the stage strings, in the ascending order the spec
lists them (Green, Yellow, Light Brown, Medium Brown, Dark Brown,
Nearly Black). -/
def stageSeverity (stage : String) : ℕ :=
  if stage = "Green" then 0
  else if stage = "Yellow" then 1
  else if stage = "Light Brown" then 2
  else if stage = "Medium Brown" then 3
  else if stage = "Dark Brown" then 4
  else 5

/-- Two temperatures lie between the same breakpoints of
`get_roast_stage` (the breakpoints are 200, 300, 350, 400, 435). -/
def same_stage_interval (t1 t2 : ℚ) : Prop :=
  ((t1 < 200) ↔ (t2 < 200)) ∧ ((t1 < 300) ↔ (t2 < 300)) ∧
  ((t1 < 350) ↔ (t2 < 350)) ∧ ((t1 < 400) ↔ (t2 < 400)) ∧
  ((t1 < 435) ↔ (t2 < 435))

/-- `start_roast` (app/core/monitor/__init__.py, lines 46-68).
`time.time()` is passed as `now`.  The `create_roast_logger` branch is
dead (a standard `logging.Logger` has no such attribute) and touches
only the logging id, so it is not part of the session state. -/
def start_roast (now : ℚ) (s : ServerState) : ServerState :=
  { s with is_roasting := true, roast_data := [], markers := [],
           roast_start_time := now,
           first_crack_detected := false, second_crack_detected := false,
           first_crack_time := none, second_crack_time := none }

/-- `pause_roast` (app/core/monitor/__init__.py). -/
def pause_roast (s : ServerState) : ServerState :=
  { s with is_roasting := false }

/-- `reset_roast` (app/core/monitor/__init__.py, lines 75-88); it also
calls `simulator.reset_simulator()`. -/
def reset_roast (s : ServerState) : ServerState :=
  { s with is_roasting := false, roast_data := [], markers := [],
           first_crack_detected := false, second_crack_detected := false,
           first_crack_time := none, second_crack_time := none,
           sim := reset_simulator }

/-- `set_start_time` (app/core/monitor/__init__.py). -/
def set_start_time (start_time : ℚ) (s : ServerState) : ServerState :=
  if start_time > 0 then { s with roast_start_time := start_time } else s

/-- `force_start_roast` (app/core/monitor/__init__.py, lines 102-122).
Unlike `start_roast` it does not touch `markers`, `first_crack_time`
or `second_crack_time`. -/
def force_start_roast (now : ℚ) (s : ServerState) : ServerState :=
  { s with is_roasting := true, roast_data := [],
           roast_start_time := now,
           first_crack_detected := false, second_crack_detected := false }

/-- `create_marker` (app/core/monitor/markers.py); the `uuid.uuid4()`
draw is passed in as `id`. -/
def create_marker (id : String) (time_value temperature : ℚ)
    (label color notes : String) : Marker :=
  { id := id, time := time_value, temperature := temperature,
    label := label, color := color, notes := notes }

/-- `add_marker` (app/core/monitor/markers.py): appends the created
marker to `state.markers`. -/
def add_marker (id : String) (time_value temperature : ℚ)
    (label color notes : String) (s : ServerState) : ServerState :=
  { s with markers := s.markers ++ [create_marker id time_value temperature label color notes] }

/-- `restore_markers` (app/core/monitor/markers.py): replaces the
marker list only when the supplied list is truthy (non-empty). -/
def restore_markers (markers_data : List Marker) (s : ServerState) : ServerState :=
  if markers_data.isEmpty then s else { s with markers := markers_data }

/-- `get_crack_status` (app/core/monitor/crack.py). -/
def get_crack_status (s : ServerState) : CrackStatus :=
  { first := s.first_crack_detected, second := s.second_crack_detected,
    first_time := s.first_crack_time, second_time := s.second_crack_time }

/-- `restore_crack_status` (app/core/monitor/crack.py). -/
def restore_crack_status (first_crack second_crack : Bool)
    (first_time second_time : Option ℚ) (s : ServerState) : ServerState :=
  { s with first_crack_detected := first_crack, second_crack_detected := second_crack,
           first_crack_time := first_time, second_crack_time := second_time }

/-- `check_for_cracks` (app/core/monitor/crack.py, lines 9-51).  The
two `uuid4` draws of the potential markers are passed as `id1`, `id2`.
The observer callbacks mutate no session state and are omitted. -/
def check_for_cracks (id1 id2 : String) (current_temp elapsed_time : ℚ)
    (s : ServerState) : ServerState :=
  let s1 :=
    if !s.first_crack_detected && simulate_first_crack current_temp then
      add_marker id1 elapsed_time current_temp
        "First Crack" "#FF5733" "First crack detected"
        { s with first_crack_detected := true, first_crack_time := some elapsed_time }
    else s
  if !s1.second_crack_detected && simulate_second_crack current_temp then
    add_marker id2 elapsed_time current_temp
      "Second Crack" "#800080" "Second crack detected"
      { s1 with second_crack_detected := true, second_crack_time := some elapsed_time }
  else s1

/-- `get_roast_data` (app/core/monitor/temp.py): returns a deep copy of
`state.roast_data`; with value semantics this is the list itself. -/
def get_roast_data (s : ServerState) : List TemperaturePoint :=
  s.roast_data

/-- `restore_data` (app/core/monitor/temp.py, lines 128-148): on a
truthy argument it replaces `state.roast_data` with a deep copy and
then, the list being non-empty, overwrites
`simulator.current_temperature` with the last restored temperature. -/
def restore_data (data_points : List TemperaturePoint) (s : ServerState) : ServerState :=
  if data_points.isEmpty then s
  else
    let s1 := { s with roast_data := data_points }
    match s1.roast_data.getLast? with
    | some last_point =>
        { s1 with sim := { s1.sim with current_temperature := last_point.temperature } }
    | none => s1

/-- Python `round(x, 1)`.  (Python rounds exact .05 ties to even; the
claims under study never hinge on tie behaviour, so half-up rounding
is used.) -/
def round1 (q : ℚ) : ℚ :=
  ((round (10 * q) : ℤ) : ℚ) / 10

/-- One iteration body of `_temperature_monitoring_task`
(app/core/monitor/temp.py, lines 41-58) while `stop_monitor` is
false, up to the `try` block.  In simulation mode the source executes
`current_temp = simulator.update_temperature()`, but
`update_temperature` (app/core/simulator.py) requires the positional
argument `heat_level`, so the call raises `TypeError` before any data
point is appended; the embedding surfaces this as `.error`.  Outside
simulation mode `get_current_temperature` returns the hardware
reading when one is available (`hw_reading`), falling back to the
simulator temperature. -/
def monitoring_tick (simulation_mode : Bool) (hw_reading : Option ℚ)
    (id1 id2 : String) (now : ℚ) (s : ServerState) : Except String ServerState :=
  if s.is_roasting then
    if simulation_mode then
      .error "TypeError: update_temperature missing 1 required positional argument: heat_level"
    else
      let current_temp := hw_reading.getD (get_simulated_temperature s.sim)
      let elapsed_time := now - s.roast_start_time
      let s1 := { s with roast_data :=
        s.roast_data ++ [{ time := round1 elapsed_time, temperature := round1 current_temp }] }
      .ok (check_for_cracks id1 id2 current_temp elapsed_time s1)
  else
    .ok s

/-- The surrounding `try/except` of `_temperature_monitoring_task`: an
exception in a tick is caught and logged, leaving the session state
as it was. -/
def monitoring_loop_body (simulation_mode : Bool) (hw_reading : Option ℚ)
    (id1 id2 : String) (now : ℚ) (s : ServerState) : ServerState :=
  match monitoring_tick simulation_mode hw_reading id1 id2 now s with
  | .ok s1 => s1
  | .error _ => s

/-- The body of `SyncStateRequest` (app/api/router/roast_status.py).
`crack_status` is declared `Optional[Dict[str, bool]]` and read with
`.get("first", False)` etc.; it is modelled as an optional record. -/
structure SyncStateRequest where
  is_roasting : Bool
  data : List TemperaturePoint
  start_time : ℚ
  crack_status : Option CrackStatus
  markers : Option (List Marker)
deriving DecidableEq, Repr

/-- Lines 57-64 of app/api/router/roast_status.py: the
`if client_is_roasting` branch and the `else` branch calling
`monitor.pause_roast()`.  In the first branch the statement
`is_roasting_state = True` (line 62) assigns to a name created by the
local `from app.core.monitor.state import is_roasting as
is_roasting_state`, i.e. it rebinds a function-local alias and leaves
`state.is_roasting` untouched, so that branch has no effect on the
server state. -/
def sync_flag_step (request : SyncStateRequest) (s : ServerState) : ServerState :=
  if request.is_roasting then s else pause_roast s

/-- Lines 66-69: `server_data = monitor.get_roast_data()`; restore the
client data when the server holds none. -/
def sync_data_step (request : SyncStateRequest) (s : ServerState) : ServerState :=
  if (get_roast_data s).length = 0 ∧ request.data.length > 0 then
    restore_data request.data s
  else s

/-- Lines 71-73: adopt a positive client start time. -/
def sync_time_step (request : SyncStateRequest) (s : ServerState) : ServerState :=
  if request.start_time > 0 then set_start_time request.start_time s else s

/-- Lines 75-82: adopt the client crack status when provided. -/
def sync_crack_step (request : SyncStateRequest) (s : ServerState) : ServerState :=
  match request.crack_status with
  | some cs => restore_crack_status cs.first cs.second cs.first_time cs.second_time s
  | none => s

/-- Lines 84-86: `if client_markers:` — a truthy (present and
non-empty) marker list is restored. -/
def sync_markers_step (request : SyncStateRequest) (s : ServerState) : ServerState :=
  match request.markers with
  | some ms => if ms.isEmpty then s else restore_markers ms s
  | none => s

/-- `sync_roast_state` (app/api/router/roast_status.py, lines 40-110),
restricted to its effect on the server state (the response dict is
built from reads only).  The guard (line 56) compares the client flag
against `monitor.is_roasting`, the import-time copy described at
`ServerState`; when it holds, the five reconciliation blocks run in
source order. -/
def sync_roast_state (request : SyncStateRequest) (s : ServerState) : ServerState :=
  if request.data.length > 0 ∧ s.monitor_is_roasting ≠ request.is_roasting then
    sync_markers_step request
      (sync_crack_step request
        (sync_time_step request
          (sync_data_step request
            (sync_flag_step request s))))
  else s

/-- Number of markers carrying a given label. -/
def countLabel (label : String) (ms : List Marker) : ℕ :=
  ms.countP (fun m => m.label == label)

/-- A convenient idle server state: all globals at their module-level
initial values (app/core/monitor/state.py, app/core/simulator.py). -/
def initialState : ServerState :=
  { is_roasting := false, monitor_is_roasting := false, roast_start_time := 0,
    roast_data := [], markers := [],
    first_crack_detected := false, second_crack_detected := false,
    first_crack_time := none, second_crack_time := none,
    sim := { current_temperature := DEFAULT_TEMPERATURE, last_update_time := 0 } }

/-- Client report with samples and `is_roasting=true` (a reconnect
during an active roast). -/
def c1_request_roasting : SyncStateRequest :=
  { is_roasting := true, data := [{ time := 0, temperature := 24 }], start_time := 0,
    crack_status := none, markers := none }

/-- Client report with samples and `is_roasting=false`. -/
def c1_request_paused : SyncStateRequest :=
  { c1_request_roasting with is_roasting := false }

/-- A server whose session flag is set (a roast in progress). -/
def c1_server_active : ServerState := { initialState with is_roasting := true }

/-- The sample payload of the spec example, reported by a client whose
activity flag agrees with the observed server flag. -/
def c2_request : SyncStateRequest :=
  { is_roasting := false,
    data := [{ time := 0, temperature := 24 }, { time := 5, temperature := 30 }],
    start_time := 0, crack_status := none, markers := none }

/-- The sample payload of the spec example, reported by a client whose
activity flag differs from the observed server flag. -/
def c2_sync_request : SyncStateRequest :=
  { is_roasting := true,
    data := [{ time := 0, temperature := 24 }, { time := 5, temperature := 30 }],
    start_time := 0, crack_status := none, markers := none }

/-- A session holding a marker and a recorded first-crack time. -/
def c4_state : ServerState :=
  { initialState with
      markers := [{ id := "m0", time := 10, temperature := 300, label := "Test", color := "#333333", notes := "" }],
      first_crack_time := some 100 }

/-- A session in which both cracks are already latched, each with a
recorded time and the first-crack marker present. -/
def c5_state : ServerState :=
  { initialState with
      first_crack_detected := true,
      second_crack_detected := true,
      first_crack_time := some 100,
      second_crack_time := some 200,
      markers := [{ id := "f1", time := 100, temperature := 370, label := "First Crack", color := "#FF5733", notes := "First crack detected" }] }

/-- A sync request with an empty sample list but every other field
populated. -/
def c6_request : SyncStateRequest :=
  { is_roasting := true, data := [], start_time := 999,
    crack_status := some { first := true, second := true, first_time := some 1, second_time := some 2 },
    markers := some [{ id := "m1", time := 1, temperature := 2, label := "L", color := "#000000", notes := "" }] }

/-- A populated server state used to observe that reconciliation with
an empty client sample list leaves everything in place. -/
def c6_server : ServerState :=
  { initialState with
      is_roasting := true,
      roast_data := [{ time := 0, temperature := 24 }],
      markers := [{ id := "m0", time := 3, temperature := 4, label := "K", color := "#111111", notes := "" }],
      first_crack_detected := true,
      first_crack_time := some 7 }

/-! ## Helper lemmas -/

/-- `set_start_time` never touches the sample sequence. -/
theorem set_start_time_roast_data (t : ℚ) (s : ServerState) :
    (set_start_time t s).roast_data = s.roast_data := by
  unfold set_start_time; split <;> rfl

/-- `restore_markers` never touches the sample sequence. -/
theorem restore_markers_roast_data (ms : List Marker) (s : ServerState) :
    (restore_markers ms s).roast_data = s.roast_data := by
  unfold restore_markers; split <;> rfl

/-- On a non-empty argument `restore_data` installs exactly the given
sample list. -/
theorem restore_data_roast_data (d : List TemperaturePoint) (s : ServerState)
    (h : d ≠ []) : (restore_data d s).roast_data = d := by
  unfold restore_data
  rw [if_neg (by simpa [List.isEmpty_iff] using h)]
  rcases hg : d.getLast? with _ | p <;> simp [hg]

/-- The activity-flag block of the sync endpoint never touches the
sample sequence. -/
theorem sync_flag_step_roast_data (request : SyncStateRequest) (s : ServerState) :
    (sync_flag_step request s).roast_data = s.roast_data := by
  unfold sync_flag_step; split <;> rfl

/-- When the server holds no samples and the client some, the data
block of the sync endpoint installs the client samples. -/
theorem sync_data_step_restores (request : SyncStateRequest) (s : ServerState)
    (hs : s.roast_data = []) (hd : request.data ≠ []) :
    (sync_data_step request s).roast_data = request.data := by
  unfold sync_data_step
  rw [if_pos ⟨by simp [get_roast_data, hs], List.length_pos.mpr hd⟩]
  exact restore_data_roast_data _ _ hd

/-- The start-time block of the sync endpoint never touches the sample
sequence. -/
theorem sync_time_step_roast_data (request : SyncStateRequest) (s : ServerState) :
    (sync_time_step request s).roast_data = s.roast_data := by
  unfold sync_time_step
  split
  · exact set_start_time_roast_data _ _
  · rfl

/-- The crack-status block of the sync endpoint never touches the
sample sequence. -/
theorem sync_crack_step_roast_data (request : SyncStateRequest) (s : ServerState) :
    (sync_crack_step request s).roast_data = s.roast_data := by
  unfold sync_crack_step; cases request.crack_status <;> rfl

/-- The marker block of the sync endpoint never touches the sample
sequence. -/
theorem sync_markers_step_roast_data (request : SyncStateRequest) (s : ServerState) :
    (sync_markers_step request s).roast_data = s.roast_data := by
  unfold sync_markers_step
  rcases request.markers with _ | ms
  · rfl
  · dsimp only
    split
    · rfl
    · exact restore_markers_roast_data ms s

/-- `stageSeverity (get_roast_stage t)` counts the breakpoints at or
below `t`. -/
theorem severity_stage_eq (t : ℚ) :
    stageSeverity (get_roast_stage t)
      = (if t < 200 then 0 else 1) + (if t < 300 then 0 else 1) + (if t < 350 then 0 else 1)
        + (if t < 400 then 0 else 1) + (if t < 435 then 0 else 1) := by
  unfold get_roast_stage
  split_ifs <;> first | decide | (exfalso; linarith)

/-- Each breakpoint indicator is monotone in the temperature. -/
theorem step_indicator_mono (c t1 t2 : ℚ) (h : t1 ≤ t2) :
    (if t1 < c then (0:ℕ) else 1) ≤ (if t2 < c then 0 else 1) := by
  by_cases q : t2 < c
  · have p : t1 < c := lt_of_le_of_lt h q
    simp [p, q]
  · by_cases p : t1 < c <;> simp [p, q]

/-! ## Claim theorems -/

/-- Claim C1.  The claim says that whenever the client flag differs
from the server flag and the client has samples, the server flag ends
equal to the client flag, in both directions.  The code violates both
directions: `is_roasting_state = True` rebinds a function-local import
alias, so a client that reports roasting leaves the server flag false;
and the guard compares against the never-reassigned
`monitor.is_roasting` copy (permanently false), so a client that
reports not-roasting while the server flag is true never enters the
sync block at all.  This theorem evaluates `sync_roast_state` at both
failing inputs. -/
theorem c1_sync_flag_code_bug :
    (c1_request_roasting.is_roasting = true ∧ initialState.is_roasting = false ∧
      c1_request_roasting.data ≠ [] ∧
      (sync_roast_state c1_request_roasting initialState).is_roasting = false) ∧
    (c1_request_paused.is_roasting = false ∧ c1_server_active.is_roasting = true ∧
      c1_request_paused.data ≠ [] ∧
      (sync_roast_state c1_request_paused c1_server_active).is_roasting = true) := by
  constructor
  · refine ⟨rfl, rfl, by simp [c1_request_roasting], ?_⟩
    norm_num [sync_roast_state, c1_request_roasting, initialState, sync_flag_step,
      sync_data_step, sync_time_step, sync_crack_step, sync_markers_step,
      get_roast_data, restore_data, pause_roast, set_start_time]
  · refine ⟨rfl, rfl, by simp [c1_request_paused, c1_request_roasting], ?_⟩
    norm_num [sync_roast_state, c1_request_paused, c1_request_roasting, c1_server_active,
      initialState]

/-- Claim C2, counterexample.  With the spec example data (server
samples empty, client samples `[{0,24},{5,30}]`) but an agreeing
activity flag, the guard of `sync_roast_state` does not fire and the
server keeps zero samples, refuting the claim as universally stated. -/
theorem c2_counterexample :
    initialState.roast_data = [] ∧ c2_request.data ≠ [] ∧
    (sync_roast_state c2_request initialState).roast_data ≠ c2_request.data := by
  have hid : sync_roast_state c2_request initialState = initialState := by
    unfold sync_roast_state
    rw [if_neg]
    rintro ⟨_, hm⟩
    exact hm rfl
  refine ⟨rfl, ?_, ?_⟩
  · simp [c2_request]
  · rw [hid]
    simp [initialState, c2_request]

/-- Claim C2, amended.  When the server holds no samples, the client
holds some, and additionally the client activity flag differs from
the flag the endpoint observes (`monitor.is_roasting`), reconciliation
replaces the server sample sequence with the client list, element-wise
equal. -/
theorem c2_client_wins_when_guard_fires (request : SyncStateRequest) (s : ServerState)
    (h1 : s.roast_data = []) (h2 : request.data ≠ [])
    (h3 : s.monitor_is_roasting ≠ request.is_roasting) :
    (sync_roast_state request s).roast_data = request.data := by
  unfold sync_roast_state
  rw [if_pos ⟨List.length_pos.mpr h2, h3⟩]
  rw [sync_markers_step_roast_data, sync_crack_step_roast_data, sync_time_step_roast_data]
  exact sync_data_step_restores request _
    (by rw [sync_flag_step_roast_data]; exact h1) h2

/-- Witness for claim C2 at the spec example input. -/
theorem c2_client_wins_witness :
    (sync_roast_state c2_sync_request initialState).roast_data = c2_sync_request.data :=
  c2_client_wins_when_guard_fires c2_sync_request initialState rfl
    (by simp [c2_sync_request]) (by simp [c2_sync_request, initialState])

/-- Claim C3.  The claim says every active tick appends exactly one
rounded sample.  In the default configuration (`SIMULATION_MODE =
true`) the tick calls `simulator.update_temperature()` without the
required `heat_level` argument, so every active tick raises
`TypeError` before appending; the loop's `except` swallows it and the
session state, in particular the sample sequence, is left unchanged. -/
theorem c3_sim_tick_type_error (hw_reading : Option ℚ) (id1 id2 : String) (now : ℚ)
    (s : ServerState) (h : s.is_roasting = true) :
    monitoring_tick SIMULATION_MODE hw_reading id1 id2 now s
      = .error "TypeError: update_temperature missing 1 required positional argument: heat_level" ∧
    monitoring_loop_body SIMULATION_MODE hw_reading id1 id2 now s = s := by
  refine ⟨?_, ?_⟩
  · simp [monitoring_tick, SIMULATION_MODE, h]
  · simp [monitoring_loop_body, monitoring_tick, SIMULATION_MODE, h]

/-- Witness for claim C3 at a concrete active session. -/
theorem c3_sim_tick_type_error_witness :
    monitoring_tick SIMULATION_MODE none "x" "y" 10 { initialState with is_roasting := true }
      = .error "TypeError: update_temperature missing 1 required positional argument: heat_level" ∧
    monitoring_loop_body SIMULATION_MODE none "x" "y" 10 { initialState with is_roasting := true }
      = { initialState with is_roasting := true } :=
  c3_sim_tick_type_error none "x" "y" 10 { initialState with is_roasting := true } rfl

/-- Claim C4, counterexample.  On a session holding a marker and a
first-crack time, `force_start_roast` and `start_roast` differ:
`force_start_roast` keeps the marker list (and the crack times) that
`start_roast` clears. -/
theorem c4_counterexample : force_start_roast 50 c4_state ≠ start_roast 50 c4_state := by
  intro h
  have hm := congrArg ServerState.markers h
  simp [force_start_roast, start_roast, c4_state] at hm

/-- Claim C4, amended.  `force_start_roast` equals `start_roast`
except that it leaves the marker set and the recorded first/second
crack times unchanged (it still sets the flag, clears samples and
crack-detected flags, and takes a fresh start time, and it is
permitted while already active). -/
theorem c4_force_start_amended (now : ℚ) (s : ServerState) :
    force_start_roast now s =
      { start_roast now s with
          markers := s.markers,
          first_crack_time := s.first_crack_time,
          second_crack_time := s.second_crack_time } := rfl

/-- Claim C5.  Once a crack is latched, a further `check_for_cracks`
call at any temperature leaves that crack's recorded time unchanged
and appends no further marker with that crack's label (symmetrical in
the two cracks). -/
theorem c5_crack_latch_idempotent (id1 id2 : String) (current_temp elapsed_time : ℚ)
    (s : ServerState) :
    (s.first_crack_detected = true →
      (check_for_cracks id1 id2 current_temp elapsed_time s).first_crack_time = s.first_crack_time ∧
      countLabel "First Crack" (check_for_cracks id1 id2 current_temp elapsed_time s).markers
        = countLabel "First Crack" s.markers) ∧
    (s.second_crack_detected = true →
      (check_for_cracks id1 id2 current_temp elapsed_time s).second_crack_time = s.second_crack_time ∧
      countLabel "Second Crack" (check_for_cracks id1 id2 current_temp elapsed_time s).markers
        = countLabel "Second Crack" s.markers) := by
  have hsf : (("Second Crack" == "First Crack") : Bool) = false := by decide
  have hfs : (("First Crack" == "Second Crack") : Bool) = false := by decide
  constructor
  · intro h
    unfold check_for_cracks
    simp only [h, Bool.not_true, Bool.false_and, Bool.false_eq_true, if_false]
    split
    · refine ⟨rfl, ?_⟩
      simp [add_marker, create_marker, countLabel, List.countP_append, hsf]
    · exact ⟨rfl, rfl⟩
  · intro h
    unfold check_for_cracks
    by_cases hA : (!s.first_crack_detected && simulate_first_crack current_temp) = true
    · simp only [hA, if_true]
      have hs1 : (add_marker id1 elapsed_time current_temp
          "First Crack" "#FF5733" "First crack detected"
          { s with first_crack_detected := true,
                   first_crack_time := some elapsed_time }).second_crack_detected = true := h
      simp only [hs1, Bool.not_true, Bool.false_and, Bool.false_eq_true, if_false]
      refine ⟨rfl, ?_⟩
      simp [add_marker, create_marker, countLabel, List.countP_append, hfs]
    · simp only [Bool.not_eq_true] at hA
      simp only [hA, Bool.false_eq_true, if_false]
      simp only [h, Bool.not_true, Bool.false_and, Bool.false_eq_true, if_false]
      exact ⟨trivial, trivial⟩

/-- Witness for claim C5: both cracks latched, temperature inside the
first-crack band. -/
theorem c5_crack_latch_idempotent_witness :
    ((check_for_cracks "u1" "u2" 370 300 c5_state).first_crack_time = c5_state.first_crack_time ∧
      countLabel "First Crack" (check_for_cracks "u1" "u2" 370 300 c5_state).markers
        = countLabel "First Crack" c5_state.markers) ∧
    ((check_for_cracks "u1" "u2" 370 300 c5_state).second_crack_time = c5_state.second_crack_time ∧
      countLabel "Second Crack" (check_for_cracks "u1" "u2" 370 300 c5_state).markers
        = countLabel "Second Crack" c5_state.markers) := by
  have h := c5_crack_latch_idempotent "u1" "u2" 370 300 c5_state
  exact ⟨h.1 rfl, h.2 rfl⟩

/-- Claim C6.  A reconciliation request with an empty client sample
list leaves the server activity flag, sample sequence, crack status
and marker set unchanged, whatever the other request fields hold. -/
theorem c6_sync_noop_on_empty_client_data (request : SyncStateRequest) (s : ServerState)
    (h : request.data = []) :
    (sync_roast_state request s).is_roasting = s.is_roasting ∧
    (sync_roast_state request s).roast_data = s.roast_data ∧
    get_crack_status (sync_roast_state request s) = get_crack_status s ∧
    (sync_roast_state request s).markers = s.markers := by
  have hid : sync_roast_state request s = s := by
    unfold sync_roast_state
    rw [if_neg]
    rintro ⟨hl, _⟩
    simp [h] at hl
  rw [hid]
  exact ⟨rfl, rfl, rfl, rfl⟩

/-- Witness for claim C6: empty client data, all other request fields
populated, against a populated server state. -/
theorem c6_sync_noop_witness :
    (sync_roast_state c6_request c6_server).is_roasting = c6_server.is_roasting ∧
    (sync_roast_state c6_request c6_server).roast_data = c6_server.roast_data ∧
    get_crack_status (sync_roast_state c6_request c6_server) = get_crack_status c6_server ∧
    (sync_roast_state c6_request c6_server).markers = c6_server.markers :=
  c6_sync_noop_on_empty_client_data c6_request c6_server rfl

/-- Claim C7.  After `reset_roast`, from any session state (in
particular any state reached by `start_roast` and monitoring ticks),
the sample sequence and marker set are empty, the crack status is the
all-false no-times default, and the simulator reads the ambient
baseline. -/
theorem c7_reset_clears_everything (s : ServerState) :
    (reset_roast s).roast_data = [] ∧ (reset_roast s).markers = [] ∧
    get_crack_status (reset_roast s)
      = { first := false, second := false, first_time := none, second_time := none } ∧
    get_simulated_temperature (reset_roast s).sim = DEFAULT_TEMPERATURE :=
  ⟨rfl, rfl, rfl, rfl⟩

/-- Claim C8, counterexample.  On the rate-limited early-return path
(`force_update` false, less than the update interval elapsed)
`update_temperature` returns the stored temperature unclamped; a
stored temperature of 10 (reachable, since `restore_data` writes
arbitrary client temperatures into the simulator) is returned below
the ambient baseline. -/
theorem c8_counterexample :
    (update_temperature 5 false 0 100 { current_temperature := 10, last_update_time := 100 }).1
      < DEFAULT_TEMPERATURE := by
  norm_num [update_temperature, TEMPERATURE_UPDATE_INTERVAL, DEFAULT_TEMPERATURE]

/-- Claim C8, amended.  Whenever the update actually recomputes
(forced, or at least the update interval has elapsed), the returned
temperature lies in `[DEFAULT_TEMPERATURE, 550]`, for every heat
level, jitter and prior simulator state. -/
theorem c8_clamped_when_recomputed (heat_level : ℤ) (force_update : Bool)
    (jitter now : ℚ) (sim : SimulatorState)
    (h : force_update = true ∨ TEMPERATURE_UPDATE_INTERVAL ≤ now - sim.last_update_time) :
    DEFAULT_TEMPERATURE ≤ (update_temperature heat_level force_update jitter now sim).1 ∧
    (update_temperature heat_level force_update jitter now sim).1 ≤ 550 := by
  unfold update_temperature
  rw [if_neg]
  · constructor
    · dsimp only
      exact le_min (by norm_num [DEFAULT_TEMPERATURE]) (le_max_left _ _)
    · dsimp only
      exact min_le_left _ _
  · rintro ⟨hf, hlt⟩
    rcases h with h | h
    · rw [h] at hf; cases hf
    · exact absurd hlt (not_lt.mpr h)

/-- Witness for claim C8 at a forced update. -/
theorem c8_clamped_witness :
    DEFAULT_TEMPERATURE
        ≤ (update_temperature 5 true 0 1 { current_temperature := 24, last_update_time := 0 }).1 ∧
    (update_temperature 5 true 0 1 { current_temperature := 24, last_update_time := 0 }).1 ≤ 550 :=
  c8_clamped_when_recomputed 5 true 0 1 { current_temperature := 24, last_update_time := 0 }
    (Or.inl rfl)

/-- Claim C9.  `get_roast_stage` is a step function: two temperatures
between the same breakpoints map to the same stage, and the stage
severity (Green, Yellow, Light Brown, Medium Brown, Dark Brown,
Nearly Black in ascending order) is non-decreasing in temperature. -/
theorem c9_stage_step_monotone (t1 t2 : ℚ) (h : t1 < t2) :
    (same_stage_interval t1 t2 → get_roast_stage t1 = get_roast_stage t2) ∧
    stageSeverity (get_roast_stage t1) ≤ stageSeverity (get_roast_stage t2) := by
  constructor
  · rintro ⟨h1, h2, h3, h4, h5⟩
    unfold get_roast_stage
    simp only [h1, h2, h3, h4, h5]
  · rw [severity_stage_eq, severity_stage_eq]
    exact add_le_add (add_le_add (add_le_add (add_le_add
      (step_indicator_mono 200 t1 t2 h.le) (step_indicator_mono 300 t1 t2 h.le))
      (step_indicator_mono 350 t1 t2 h.le)) (step_indicator_mono 400 t1 t2 h.le))
      (step_indicator_mono 435 t1 t2 h.le)

/-- Witness for claim C9 at two temperatures in the Yellow band. -/
theorem c9_stage_step_monotone_witness :
    ((210:ℚ) < 250) ∧
    ((same_stage_interval 210 250 → get_roast_stage (210:ℚ) = get_roast_stage 250) ∧
      stageSeverity (get_roast_stage (210:ℚ)) ≤ stageSeverity (get_roast_stage 250)) :=
  ⟨by norm_num, c9_stage_step_monotone 210 250 (by norm_num)⟩

/-- Claim C10.  On any non-empty client list, `restore_data` overwrites
the simulator temperature with the temperature of the last restored
point. -/
theorem c10_restore_data_sets_sim_temperature (data_points : List TemperaturePoint)
    (s : ServerState) (p : TemperaturePoint) (h : data_points.getLast? = some p) :
    (restore_data data_points s).sim.current_temperature = p.temperature := by
  have hne : data_points ≠ [] := by rintro rfl; simp at h
  unfold restore_data
  rw [if_neg (by simpa [List.isEmpty_iff] using hne)]
  dsimp only
  rw [h]

/-- Witness for claim C10 at the two-point example list. -/
theorem c10_restore_data_witness :
    (restore_data [{ time := 0, temperature := 24 }, { time := 5, temperature := 30 }]
        initialState).sim.current_temperature
      = ({ time := 5, temperature := 30 } : TemperaturePoint).temperature :=
  c10_restore_data_sets_sim_temperature _ initialState _ rfl

end Roastify
